import Mathlib

/-!
Shallow embedding of the city-query core of the apimgr/citylist repository.

Two implementations of the same API live in the repository and are embedded
here side by side:
* the Express routes in `src/routes/api/v1/cities.js` (nearest-city lookup,
  name search, listing, country filter), and
* the Go handlers in the server file (`handleCities`, `handleCitiesSearch`)
  together with `src/src/database/database.go` (`Initialize`).

Coordinates are modelled as rationals (the decimal literals of the dataset),
cast to the reals exactly where the JavaScript code performs floating-point
trigonometry.  SQL effects (SELECT with LIMIT and OFFSET, LIKE) are modelled
by their documented SQLite semantics on the in-memory list of rows.
-/

namespace CityList

/-- City record: id, name, 2-letter country code, longitude and latitude.
Mirrors the `City` struct of `database.go` and the flattened `coord` object
of the JSON dataset used by `cities.js`. -/
structure City where
  id : Int
  name : String
  country : String
  lon : ℚ
  lat : ℚ
deriving DecidableEq

/-- ASCII lower-casing of a string, character by character.  Models the
lower-casing performed by JavaScript `toLowerCase` (for the ASCII range)
and by SQLite case-insensitive LIKE. -/
def lowerStr (s : String) : String :=
  ⟨s.data.map Char.toLower⟩

/-- Whether `sub` occurs at the head of `s` (character lists). -/
def leadMatch : List Char → List Char → Bool
  | [], _ => true
  | _ :: _, [] => false
  | a :: as, b :: bs => a = b && leadMatch as bs

/-- Whether `sub` occurs contiguously anywhere inside `s`.  Models the
JavaScript `String.prototype.includes` substring test. -/
def containsSub (sub : List Char) : List Char → Bool
  | [] => sub.isEmpty
  | b :: bs => leadMatch sub (b :: bs) || containsSub sub bs

/-- Models the JavaScript idiom `parseInt(x) || dflt`: an absent or
unparseable value (NaN, modelled as `none`) and the falsy value `0` both
fall back to the default. -/
def jsIntOr (v : Option Int) (dflt : Int) : Int :=
  match v with
  | none => dflt
  | some n => if n = 0 then dflt else n

/-- Models JavaScript `Array.prototype.slice(0, e)`: a nonnegative end index
takes the first `e` elements, a negative one counts from the end. -/
def jsSlice0 {α : Type} (l : List α) (e : Int) : List α :=
  if 0 ≤ e then l.take e.toNat else l.take ((l.length : Int) + e).toNat

/-- Response of the Express search route: a 400 error or the result list. -/
inductive SearchResponse where
  | badRequest (msg : String)
  | ok (results : List City)
deriving DecidableEq

/-- The Express route `router.get /search` of `cities.js` (lines 163 to 178):
`limit = Math.min(parseInt(req.query.limit) || 20, 100)`, a query shorter
than 2 characters is rejected, otherwise the cities whose lower-cased name
contains the lower-cased query are returned, sliced to the limit.
`q = none` models an absent query parameter. -/
def jsSearch (q : Option String) (limitParam : Option Int) (cities : List City) : SearchResponse :=
  let limit := min (jsIntOr limitParam 20) 100
  match q with
  | none => SearchResponse.badRequest "Search query must be at least 2 characters"
  | some s =>
    if s.length < 2 then
      SearchResponse.badRequest "Search query must be at least 2 characters"
    else
      SearchResponse.ok
        (jsSlice0 (cities.filter (fun c => containsSub (lowerStr s).data (lowerStr c.name).data)) limit)

/-- Specification-side description of name search, written from the words of
the spec: the first (up to `limit`, in store order) cities whose name
contains the query as a case-insensitive substring. -/
def searchSpecFirstMatches (q : String) (limit : Nat) (cities : List City) : List City :=
  (cities.filter (fun c => containsSub (lowerStr q).data (lowerStr c.name).data)).take limit

/-- Response of the Go search handler: an error envelope or the data
envelope carrying the echoed query and the result list. -/
inductive GoSearchResponse where
  | error (code msg : String)
  | ok (query : String) (cities : List City)
deriving DecidableEq

/-- Models a SQL `LIMIT n` clause under SQLite semantics: a negative limit
means no upper bound on the number of returned rows. -/
def sqlTake {α : Type} (l : List α) (n : Int) : List α :=
  if n < 0 then l else l.take n.toNat

/-- Models `name LIKE '%q%'` under SQLite semantics for a query without
wildcard metacharacters: case-insensitive (ASCII) substring containment. -/
def likeMatch (q name : String) : Bool :=
  containsSub (lowerStr q).data (lowerStr name).data

/-- The Go handler `handleCitiesSearch` (server file, lines 750 to 790):
only an empty query is rejected; `limit` is the result of `strconv.Atoi`
(`0` for an absent or unparseable parameter) and `0` is replaced by the
default `50`; no upper cap is applied before the SQL `LIMIT`. -/
def handleCitiesSearch (q : String) (limitAtoi : Int) (cities : List City) : GoSearchResponse :=
  if q = "" then
    GoSearchResponse.error "MISSING_PARAMETER" "Query parameter q is required"
  else
    let limit := if limitAtoi = 0 then 50 else limitAtoi
    GoSearchResponse.ok q (sqlTake (cities.filter (fun c => likeMatch q c.name)) limit)

/-- Projection of a Go search response onto its result list. -/
def goCitiesList (r : GoSearchResponse) : Option (List City) :=
  match r with
  | GoSearchResponse.error _ _ => none
  | GoSearchResponse.ok _ cs => some cs

/-- Data envelope of the Go listing handler: result page, total corpus
count, and the echoed limit and offset. -/
structure GoListResponse where
  cities : List City
  total : Nat
  limit : Int
  offset : Int
deriving DecidableEq

/-- Models a SQL `LIMIT limit OFFSET offset` clause under SQLite semantics:
a negative offset behaves as zero, a negative limit means no bound. -/
def sqlPage {α : Type} (l : List α) (limit offset : Int) : List α :=
  sqlTake (l.drop offset.toNat) limit

/-- The Go handler `handleCities` (server file, lines 703 to 747): `limit`
and `offset` come from `strconv.Atoi` (`0` on error); a zero limit is
replaced by the default `100`, a limit above `1000` is clamped to `1000`;
the total is `COUNT(*)` over the whole table, independent of the window. -/
def handleCities (limitAtoi offsetAtoi : Int) (cities : List City) : GoListResponse :=
  let limit1 := if limitAtoi = 0 then 100 else limitAtoi
  let limit2 := if limit1 > 1000 then 1000 else limit1
  { cities := sqlPage cities limit2 offsetAtoi
    total := cities.length
    limit := limit2
    offset := offsetAtoi }

/-- One `INSERT INTO cities` of `loadCitiesFromJSON` (`database.go`): the
table has `id INTEGER PRIMARY KEY`, so a record whose id is already present
fails the insert and is skipped (logged and ignored by the Go code). -/
def insertCity (tbl : List City) (c : City) : List City :=
  if tbl.any (fun x => x.id = c.id) then tbl else tbl ++ [c]

/-- The insert loop of `loadCitiesFromJSON` (`database.go`, lines 177 to
216), run against the empty `cities` table. -/
def loadCitiesFromJSON (recs : List City) : List City :=
  recs.foldl insertCity []

/-- The city-loading step of `Initialize` (`database.go`, lines 44 to 57):
the table is populated from the embedded JSON only when
`SELECT COUNT(*) FROM cities` returns zero. -/
def initializeCities (store recs : List City) : List City :=
  if store.length = 0 then loadCitiesFromJSON recs else store

/-- Two-argument arctangent, as computed by JavaScript `Math.atan2(y, x)`
on real arguments (signed zeros ignored). -/
noncomputable def atan2 (y x : ℝ) : ℝ :=
  if 0 < x then Real.arctan (y / x)
  else if x = 0 then
    (if 0 < y then Real.pi / 2 else if y < 0 then -(Real.pi / 2) else 0)
  else
    (if 0 ≤ y then Real.arctan (y / x) + Real.pi else Real.arctan (y / x) - Real.pi)

/-- The function `calculateDistance(lat1, lon1, lat2, lon2)` of `cities.js`
(lines 22 to 32): haversine great-circle distance with Earth radius 6371 km,
angles converted from degrees to radians. -/
noncomputable def calculateDistance (lat1 lon1 lat2 lon2 : ℝ) : ℝ :=
  let R : ℝ := 6371
  let dLat := (lat2 - lat1) * Real.pi / 180
  let dLon := (lon2 - lon1) * Real.pi / 180
  let a :=
    Real.sin (dLat / 2) * Real.sin (dLat / 2) +
      Real.cos (lat1 * Real.pi / 180) * Real.cos (lat2 * Real.pi / 180) *
        Real.sin (dLon / 2) * Real.sin (dLon / 2)
  let c := 2 * atan2 (Real.sqrt a) (Real.sqrt (1 - a))
  R * c

/-- Rounding to 2 decimal places, as computed by the JavaScript expression
`Math.round(x * 100) / 100` (`Math.round` rounds half toward positive
infinity, exactly as `round` does on the reals). -/
noncomputable def round2 (x : ℝ) : ℝ :=
  ((round (x * 100) : ℤ) : ℝ) / 100

/-- The minimum-tracking loop shared by both coordinate handlers of
`cities.js`: `minDistance` starts at `Infinity` (modelled by `none`) and is
replaced only on a strictly smaller distance, so the first city attaining
the minimum is kept. -/
noncomputable def scanAux (d : City → ℝ) : Option (City × ℝ) → List City → Option (City × ℝ)
  | best, [] => best
  | best, c :: rest =>
    match best with
    | none => scanAux d (some (c, d c)) rest
    | some (b, m) =>
      if d c < m then scanAux d (some (c, d c)) rest else scanAux d (some (b, m)) rest

/-- Response of the coordinate handlers: a 400 error, the 404 returned for
an empty corpus, or the closest city with the rounded distance. -/
inductive CoordResponse where
  | badRequest (msg : String)
  | notFound (msg : String)
  | ok (city : City) (distance : ℝ)

/-- The Express route `router.get /coordinates` of `cities.js` (lines 255
to 287).  `none` models a query parameter on which `parseFloat` returned
NaN (missing or non-numeric); the range check and the scan mirror the code,
and only the returned distance is rounded. -/
noncomputable def getCoordinates (longitude latitude : Option ℚ) (cities : List City) : CoordResponse :=
  match longitude, latitude with
  | some lon, some lat =>
    if lon < -180 ∨ 180 < lon ∨ lat < -90 ∨ 90 < lat then
      CoordResponse.badRequest
        "Invalid coordinates: longitude must be between -180 and 180, latitude between -90 and 90"
    else
      match scanAux (fun c => calculateDistance (lat : ℝ) (lon : ℝ) (c.lat : ℝ) (c.lon : ℝ))
          none cities with
      | none => CoordResponse.notFound "No cities found"
      | some (c, m) => CoordResponse.ok c (round2 m)
  | _, _ => CoordResponse.badRequest "Both longitude and latitude must be valid numbers"

/-- A field of the JSON body of the POST route: absent, present but not
parsing to a finite number, or a finite number. -/
inductive Param where
  | missing
  | nan
  | num (v : ℚ)
deriving DecidableEq

/-- The `parseFloat` step applied to a present body field. -/
def paramParse (p : Param) : Option ℚ :=
  match p with
  | Param.missing => none
  | Param.nan => none
  | Param.num v => some v

/-- The Express route `router.post /coordinates` of `cities.js` (lines 289
to 327): an explicit presence check on the body fields, then `parseFloat`,
the same range check and the same scan as the GET route, with the internal
`calculateDistance` call taking latitude first. -/
noncomputable def postCoordinates (longitude latitude : Param) (cities : List City) : CoordResponse :=
  if longitude = Param.missing ∨ latitude = Param.missing then
    CoordResponse.badRequest "Both longitude and latitude are required in request body"
  else
    match paramParse longitude, paramParse latitude with
    | some lon, some lat =>
      if lon < -180 ∨ 180 < lon ∨ lat < -90 ∨ 90 < lat then
        CoordResponse.badRequest
          "Invalid coordinates: longitude must be between -180 and 180, latitude between -90 and 90"
      else
        match scanAux (fun c => calculateDistance (lat : ℝ) (lon : ℝ) (c.lat : ℝ) (c.lon : ℝ))
            none cities with
        | none => CoordResponse.notFound "No cities found"
        | some (c, m) => CoordResponse.ok c (round2 m)
    | _, _ => CoordResponse.badRequest "Both longitude and latitude must be valid numbers"

/-- Whether a GET coordinate parameter fails to parse as a finite number in
the given closed range (the failure condition of claim C3). -/
def badCoord (o : Option ℚ) (lo hi : ℚ) : Bool :=
  match o with
  | none => true
  | some v => decide (v < lo) || decide (hi < v)

/-- Whether a POST body field fails to be a finite number in range. -/
def badParam (p : Param) (lo hi : ℚ) : Bool :=
  match p with
  | Param.missing => true
  | Param.nan => true
  | Param.num v => decide (v < lo) || decide (hi < v)

/-- Predicate used to state the tie-break of claim C2: the city shares the
exact stored coordinate pair of `c0`. -/
def sharesPair (c0 x : City) : Bool :=
  decide (x.lat = c0.lat ∧ x.lon = c0.lon)

/-- Concrete city used by witnesses (coordinates rounded to whole
degrees). -/
def london : City :=
  { id := 1, name := "London", country := "GB", lon := 0, lat := 51 }

/-- Concrete city used by witnesses (coordinates rounded to whole
degrees). -/
def londonderry : City :=
  { id := 2, name := "Londonderry", country := "GB", lon := -7, lat := 55 }

/-- Concrete city used by witnesses (coordinates rounded to whole
degrees). -/
def paris : City :=
  { id := 3, name := "Paris", country := "FR", lon := 2, lat := 49 }

/-- C8: for all valid offset and limit, the paginated listing returns
exactly `min limit (count - offset)` cities (0 when the offset reaches the
corpus size) in store order, and the reported total is the corpus count
regardless of the page window; an offset beyond the corpus size is not an
error and yields the empty page with the true total. -/
theorem handleCities_page_window (limit offset : Int) (cities : List City)
    (hl : 0 < limit) (hl2 : limit ≤ 1000) (_ho : 0 ≤ offset) :
    (handleCities limit offset cities).cities.length
        = min limit.toNat (cities.length - offset.toNat)
      ∧ (handleCities limit offset cities).total = cities.length
      ∧ List.Sublist (handleCities limit offset cities).cities cities
      ∧ (cities.length ≤ offset.toNat → (handleCities limit offset cities).cities = []) := by
  have h1 : ¬ (limit = 0) := by omega
  have h2 : ¬ (limit > 1000) := by omega
  have h3 : ¬ (limit < 0) := by omega
  simp only [handleCities, sqlPage, sqlTake, if_neg h1, if_neg h2, if_neg h3]
  refine ⟨?_, ?_, ?_, ?_⟩
  · simp [List.length_take, List.length_drop]
  · trivial
  · exact (List.take_sublist _ _).trans (List.drop_sublist _ _)
  · intro hle
    rw [List.drop_eq_nil_of_le hle, List.take_nil]

/-- Witness for C8 at a concrete window: offset 1 and limit 2 over a
corpus of three cities. -/
theorem handleCities_page_window_witness :
    (handleCities 2 1 [london, paris, londonderry]).cities.length
        = min (Int.toNat 2) ([london, paris, londonderry].length - Int.toNat 1)
      ∧ (handleCities 2 1 [london, paris, londonderry]).total
        = [london, paris, londonderry].length
      ∧ List.Sublist (handleCities 2 1 [london, paris, londonderry]).cities
          [london, paris, londonderry]
      ∧ ([london, paris, londonderry].length ≤ Int.toNat 1 →
          (handleCities 2 1 [london, paris, londonderry]).cities = []) :=
  handleCities_page_window 2 1 [london, paris, londonderry]
    (by norm_num) (by norm_num) (by norm_num)

/-- C9 counterexample: the claim says the number of returned cities never
exceeds 1000 for any input limit, but a negative limit (for example the
result of `strconv.Atoi` on "-1") is passed through to SQLite, where a
negative LIMIT means no bound: on a corpus of 1001 cities all 1001 rows
come back. -/
theorem handleCities_negative_limit_unbounded :
    1000 < (handleCities (-1) 0 (List.replicate 1001 london)).cities.length := by
  have h1 : ¬ ((-1 : Int) = 0) := by norm_num
  have h2 : ¬ ((-1 : Int) > 1000) := by norm_num
  have h3 : ((-1 : Int) < 0) := by norm_num
  simp only [handleCities, sqlPage, sqlTake, if_neg h1, if_neg h2, if_pos h3,
    Int.toNat_zero, List.drop_zero, List.length_replicate]
  norm_num

/-- C9 amended: a limit of exactly 0 (the `Atoi` result for an absent or
unparseable parameter) is replaced by the default 100; a limit above 1000
is silently clamped to 1000; a negative offset produces the same page as
offset 0; but a negative limit is passed through unchanged and SQLite then
returns the whole remaining corpus, so only positive limits keep the page
within 1000 cities. -/
theorem handleCities_sanitization_amended :
    (∀ off cities, handleCities 0 off cities = handleCities 100 off cities)
  ∧ (∀ l off cities, 1000 < l → handleCities l off cities = handleCities 1000 off cities)
  ∧ (∀ l off cities, off ≤ 0 →
      (handleCities l off cities).cities = (handleCities l 0 cities).cities)
  ∧ (∀ off cities, 0 ≤ off →
      (handleCities (-1) off cities).cities = cities.drop off.toNat)
  ∧ (∀ l off cities, 0 < l → (handleCities l off cities).cities.length ≤ 1000) := by
  refine ⟨?_, ?_, ?_, ?_, ?_⟩
  · intro off cities
    rfl
  · intro l off cities hgt
    have h1 : ¬ (l = 0) := by omega
    have h2 : l > 1000 := by omega
    simp [handleCities, if_neg h1, if_pos h2]
  · intro l off cities hoff
    have : off.toNat = (0 : Int).toNat := by omega
    simp only [handleCities, sqlPage, this]
  · intro off cities hoff
    have h1 : ¬ ((-1 : Int) = 0) := by norm_num
    have h2 : ¬ ((-1 : Int) > 1000) := by norm_num
    have h3 : ((-1 : Int) < 0) := by norm_num
    simp [handleCities, sqlPage, sqlTake, if_neg h1, if_neg h2, if_pos h3]
  · intro l off cities hl
    have h1 : ¬ (l = 0) := by omega
    by_cases h2 : l > 1000
    · have h3 : ¬ ((1000 : Int) < 0) := by norm_num
      simp only [handleCities, sqlPage, sqlTake, if_neg h1, if_pos h2, if_neg h3]
      have := List.length_take_le (Int.toNat 1000) (cities.drop off.toNat)
      omega
    · have h3 : ¬ (l < 0) := by omega
      simp only [handleCities, sqlPage, sqlTake, if_neg h1, if_neg h2, if_neg h3]
      have := List.length_take_le l.toNat (cities.drop off.toNat)
      omega

/-- Witness for the amended C9 at concrete inputs: a limit of 1500 is
clamped to 1000. -/
theorem handleCities_sanitization_amended_witness :
    handleCities 1500 0 [london] = handleCities 1000 0 [london] :=
  handleCities_sanitization_amended.2.1 1500 0 [london] (by norm_num)

/-- C6 counterexample: the claim says every façade entry point of name
search rejects a query shorter than 2 characters, but the Go handler
checks only for the empty string: the one-character query "o" is accepted
and the search runs, returning a result set. -/
theorem handleCitiesSearch_accepts_one_char :
    handleCitiesSearch "o" 0 [london] = GoSearchResponse.ok "o" [london] := by
  rfl

/-- C6 amended: the Express search route rejects every query shorter than
2 characters (including a missing query) with the invalid-query error,
while the Go search handler rejects only a missing or empty query and
accepts one-character queries. -/
theorem search_short_query_validation :
    (∀ n cities, jsSearch none n cities
        = SearchResponse.badRequest "Search query must be at least 2 characters")
  ∧ (∀ s n cities, s.length < 2 → jsSearch (some s) n cities
        = SearchResponse.badRequest "Search query must be at least 2 characters")
  ∧ (∀ lim cities, handleCitiesSearch "" lim cities
        = GoSearchResponse.error "MISSING_PARAMETER" "Query parameter q is required")
  ∧ (∃ lim cities r, handleCitiesSearch "o" lim cities = GoSearchResponse.ok "o" r) := by
  refine ⟨fun n cities => rfl, ?_, fun lim cities => rfl, ?_⟩
  · intro s n cities hs
    simp only [jsSearch, if_pos hs]
  · exact ⟨0, [london], [london], rfl⟩

/-- Witness for the amended C6: the one-character query "a" is rejected by
the Express route. -/
theorem search_short_query_validation_witness :
    jsSearch (some "a") (some 50) [london]
      = SearchResponse.badRequest "Search query must be at least 2 characters" :=
  search_short_query_validation.2.1 "a" (some 50) [london] (by decide)

/-- C7 counterexample: the claim says the search limit defaults to 50 when
absent, but the Express route uses `parseInt(req.query.limit) || 20`: with
the limit parameter absent and 21 matching cities, only 20 are returned. -/
theorem jsSearch_default_is_twenty :
    jsSearch (some "lo") none (List.replicate 21 london)
      = SearchResponse.ok (List.replicate 20 london) := by
  rfl

/-- C7 amended: the Express search route defaults its limit to 20 when the
parameter is absent and caps every nonnegative requested limit at 100 (a
cap stricter than the listing cap of 1000); the Go search handler defaults
to 50 and applies no cap at all, so a request for 150 over a corpus of 101
matching cities returns all 101 of them. -/
theorem search_limit_caps_amended :
    (∀ q cities, jsSearch q none cities = jsSearch q (some 20) cities)
  ∧ (∀ s n cities r, 0 ≤ n → jsSearch (some s) (some n) cities = SearchResponse.ok r →
      r.length ≤ 100)
  ∧ (∀ q cities, handleCitiesSearch q 0 cities = handleCitiesSearch q 50 cities)
  ∧ (goCitiesList (handleCitiesSearch "o" 150 (List.replicate 101 london))
      = some (List.replicate 101 london)) := by
  refine ⟨fun q cities => rfl, ?_, fun q cities => rfl, ?_⟩
  · intro s n cities r hn heq
    by_cases hs : s.length < 2
    · simp only [jsSearch, if_pos hs] at heq
      exact absurd heq (by simp)
    · simp only [jsSearch, if_neg hs, SearchResponse.ok.injEq] at heq
      subst heq
      have hle : min (jsIntOr (some n) 20) 100 ≤ 100 := min_le_right _ _
      have hnn : 0 ≤ min (jsIntOr (some n) 20) 100 := by
        refine le_min ?_ (by norm_num)
        simp only [jsIntOr]
        split <;> omega
      rw [jsSlice0, if_pos hnn]
      have := List.length_take_le
        (min (jsIntOr (some n) 20) 100).toNat
        (cities.filter (fun c => containsSub (lowerStr s).data (lowerStr c.name).data))
      omega
  · have hq : ¬ (("o" : String) = "") := by decide
    have hl : ¬ ((150 : Int) = 0) := by norm_num
    have hfilter : (List.replicate 101 london).filter (fun c => likeMatch "o" c.name)
        = List.replicate 101 london := by
      rw [List.filter_replicate, if_pos (by decide)]
    simp only [handleCitiesSearch, if_neg hq, if_neg hl, goCitiesList, hfilter, sqlTake]
    rw [if_neg (by norm_num : ¬ ((150 : Int) < 0)),
      List.take_of_length_le (by simp : (List.replicate 101 london).length ≤ (150 : Int).toNat)]

/-- Witness for the amended C7: a small concrete search through the cap
conjunct. -/
theorem search_limit_caps_amended_witness :
    (List.replicate 3 london).length ≤ 100 :=
  search_limit_caps_amended.2.1 "lo" 5 (List.replicate 3 london)
    (List.replicate 3 london) (by norm_num) (by rfl)

/-- Helper: lower-casing a string preserves its length. -/
theorem lowerStr_length (s : String) : (lowerStr s).length = s.length := by
  show (s.data.map Char.toLower).length = s.length
  rw [List.length_map]
  rfl

/-- Helper: a string with the same lower-casing as a nonempty string is
nonempty. -/
theorem ne_empty_of_lowerStr_eq {s t : String} (h : lowerStr s = lowerStr t)
    (hs : s ≠ "") : t ≠ "" := by
  intro ht
  apply hs
  have h1 : s.length = t.length := by
    rw [← lowerStr_length s, ← lowerStr_length t, h]
  have h2 : s.length = 0 := by rw [h1, ht]; rfl
  cases s with
  | mk data =>
    cases data with
    | nil => rfl
    | cons a l => exact absurd h2 (by simp [String.length])

/-- C5: the Express search route returns exactly the first (up to the
requested limit, in store order) cities whose name contains the query as a
case-insensitive substring, and both the Express route and the Go handler
are insensitive to the casing of the query, so searching for london and
LONDON yields identical result sets. -/
theorem search_substring_semantics :
    (∀ s n cities, 2 ≤ s.length → 0 < n → n ≤ 100 →
        jsSearch (some s) (some n) cities
          = SearchResponse.ok (searchSpecFirstMatches s n.toNat cities))
  ∧ (∀ s t lp cities, lowerStr s = lowerStr t →
        jsSearch (some s) lp cities = jsSearch (some t) lp cities)
  ∧ (∀ s t lim cities, lowerStr s = lowerStr t → s ≠ "" →
        goCitiesList (handleCitiesSearch s lim cities)
          = goCitiesList (handleCitiesSearch t lim cities)) := by
  refine ⟨?_, ?_, ?_⟩
  · intro s n cities h2 hpos hcap
    have hs : ¬ (s.length < 2) := by omega
    have hn0 : ¬ (n = 0) := by omega
    simp only [jsSearch, if_neg hs, jsIntOr, if_neg hn0, min_eq_left hcap,
      searchSpecFirstMatches, SearchResponse.ok.injEq]
    rw [jsSlice0, if_pos hpos.le]
  · intro s t lp cities h
    have hlen : s.length = t.length := by
      rw [← lowerStr_length s, ← lowerStr_length t, h]
    simp only [jsSearch, hlen, h]
  · intro s t lim cities h hs
    have ht : t ≠ "" := ne_empty_of_lowerStr_eq h hs
    simp only [handleCitiesSearch, likeMatch, if_neg hs, if_neg ht, h, goCitiesList]

/-- Witness for C5: the spec scenario, searching london and LONDON over
the London and Londonderry corpus. -/
theorem search_substring_semantics_witness :
    jsSearch (some "london") (some 50) [london, londonderry]
        = SearchResponse.ok
            (searchSpecFirstMatches "london" (Int.toNat 50) [london, londonderry])
      ∧ jsSearch (some "LONDON") (some 50) [london, londonderry]
        = jsSearch (some "london") (some 50) [london, londonderry] :=
  ⟨search_substring_semantics.1 "london" 50 [london, londonderry]
      (by decide) (by norm_num) (by norm_num),
    search_substring_semantics.2.1 "LONDON" "london" (some 50) [london, londonderry]
      (by rfl)⟩

/-- Helper: a scan started from a concrete best candidate always yields a
result. -/
theorem scanAux_some (d : City → ℝ) :
    ∀ (l : List City) (p : City × ℝ), ∃ c m, scanAux d (some p) l = some (c, m) := by
  intro l
  induction l with
  | nil => exact fun p => ⟨p.1, p.2, rfl⟩
  | cons y t ih =>
    intro p
    obtain ⟨b, m⟩ := p
    by_cases h : d y < m
    · obtain ⟨c, m', hcm⟩ := ih (y, d y)
      exact ⟨c, m', by simp only [scanAux, if_pos h]; exact hcm⟩
    · obtain ⟨c, m', hcm⟩ := ih (b, m)
      exact ⟨c, m', by simp only [scanAux, if_neg h]; exact hcm⟩

/-- Helper: a best candidate at least as close as everything remaining in
the list survives the rest of the scan. -/
theorem scanAux_stable (d : City → ℝ) :
    ∀ (l : List City) (b : City) (m : ℝ), (∀ x ∈ l, m ≤ d x) →
      scanAux d (some (b, m)) l = some (b, m) := by
  intro l
  induction l with
  | nil => exact fun b m _ => rfl
  | cons y t ih =>
    intro b m hall
    have hy : ¬ (d y < m) := not_lt.mpr (hall y (List.mem_cons_self _ _))
    simp only [scanAux, if_neg hy]
    exact ih b m (fun x hx => hall x (List.mem_cons_of_mem _ hx))

/-- Helper: full characterization of the minimum-tracking scan.  A result
either is the unbeaten initial candidate, or splits the list around the
returned city: everything scanned before it is strictly farther (the
first-wins tie-break), everything after it is no closer, and the returned
distance is the distance of the returned city. -/
theorem scanAux_shape (d : City → ℝ) :
    ∀ (l : List City) (b : Option (City × ℝ)) (c : City) (m : ℝ),
      scanAux d b l = some (c, m) →
      (b = some (c, m) ∧ ∀ x ∈ l, m ≤ d x) ∨
      (∃ l1 l2, l = l1 ++ c :: l2 ∧ m = d c ∧ (∀ x ∈ l1, m < d x) ∧
        (∀ p : City × ℝ, b = some p → m < p.2) ∧ (∀ x ∈ l2, m ≤ d x)) := by
  intro l
  induction l with
  | nil =>
    intro b c m h
    left
    refine ⟨h, ?_⟩
    intro x hx
    cases hx
  | cons y t ih =>
    intro b c m h
    rcases b with _ | ⟨b0, m0⟩
    · have h' : scanAux d (some (y, d y)) t = some (c, m) := h
      rcases ih (some (y, d y)) c m h' with ⟨hb, hall⟩ | ⟨l1, l2, hdec, hm, hl1, hbP, hl2⟩
      · simp only [Option.some.injEq, Prod.mk.injEq] at hb
        obtain ⟨hy, hdy⟩ := hb
        right
        refine ⟨[], t, by simp [hy], by rw [← hdy, hy], ?_, ?_, hall⟩
        · intro x hx; cases hx
        · intro p hp; cases hp
      · right
        refine ⟨y :: l1, l2, by simp [hdec], hm, ?_, ?_, hl2⟩
        · intro x hx
          rcases List.mem_cons.mp hx with hx | hx
          · rw [hx]; exact hbP (y, d y) rfl
          · exact hl1 x hx
        · intro p hp; cases hp
    · have hstep : scanAux d (some (b0, m0)) (y :: t)
          = if d y < m0 then scanAux d (some (y, d y)) t
            else scanAux d (some (b0, m0)) t := rfl
      by_cases hcmp : d y < m0
      · have h' : scanAux d (some (y, d y)) t = some (c, m) := by
          rw [hstep, if_pos hcmp] at h; exact h
        rcases ih (some (y, d y)) c m h' with ⟨hb, hall⟩ | ⟨l1, l2, hdec, hm, hl1, hbP, hl2⟩
        · simp only [Option.some.injEq, Prod.mk.injEq] at hb
          obtain ⟨hy, hdy⟩ := hb
          right
          refine ⟨[], t, by simp [hy], by rw [← hdy, hy], ?_, ?_, hall⟩
          · intro x hx; cases hx
          · intro p hp
            rw [← Option.some.inj hp]
            rw [← hdy]
            exact hcmp
        · right
          refine ⟨y :: l1, l2, by simp [hdec], hm, ?_, ?_, hl2⟩
          · intro x hx
            rcases List.mem_cons.mp hx with hx | hx
            · rw [hx]; exact hbP (y, d y) rfl
            · exact hl1 x hx
          · intro p hp
            rw [← Option.some.inj hp]
            exact lt_trans (hbP (y, d y) rfl) hcmp
      · have h' : scanAux d (some (b0, m0)) t = some (c, m) := by
          rw [hstep, if_neg hcmp] at h; exact h
        rcases ih (some (b0, m0)) c m h' with ⟨hb, hall⟩ | ⟨l1, l2, hdec, hm, hl1, hbP, hl2⟩
        · left
          refine ⟨hb, ?_⟩
          intro x hx
          rcases List.mem_cons.mp hx with hx | hx
          · simp only [Option.some.injEq, Prod.mk.injEq] at hb
            rw [hx, ← hb.2]
            exact not_lt.mp hcmp
          · exact hall x hx
        · right
          have hm0 : m < m0 := hbP (b0, m0) rfl
          refine ⟨y :: l1, l2, by simp [hdec], hm, ?_, ?_, hl2⟩
          · intro x hx
            rcases List.mem_cons.mp hx with hx | hx
            · rw [hx]; exact lt_of_lt_of_le hm0 (not_lt.mp hcmp)
            · exact hl1 x hx
          · intro p hp
            rw [← Option.some.inj hp]
            exact hm0

/-- Helper: a nonempty scan from the infinite initial distance yields a
result. -/
theorem scanAux_none_result (d : City → ℝ) (l : List City) (hne : l ≠ []) :
    ∃ c m, scanAux d none l = some (c, m) := by
  cases l with
  | nil => exact absurd rfl hne
  | cons y t => exact scanAux_some d t (y, d y)

/-- C1: for every non-empty corpus and every in-range query point, the
nearest-city lookup returns a city whose haversine distance (Earth radius
6371 km, angles in radians) to the query point is minimal over the whole
corpus; the minimum is tracked over unrounded distances and only the
returned distance is rounded to 2 decimal places. -/
theorem getCoordinates_returns_nearest (lon lat : ℚ) (cities : List City)
    (hne : cities ≠ []) (h1 : -180 ≤ lon) (h2 : lon ≤ 180)
    (h3 : -90 ≤ lat) (h4 : lat ≤ 90) :
    ∃ c, c ∈ cities ∧
      getCoordinates (some lon) (some lat) cities
        = CoordResponse.ok c
            (round2 (calculateDistance (lat : ℝ) (lon : ℝ) (c.lat : ℝ) (c.lon : ℝ)))
      ∧ ∀ x ∈ cities,
          calculateDistance (lat : ℝ) (lon : ℝ) (c.lat : ℝ) (c.lon : ℝ)
            ≤ calculateDistance (lat : ℝ) (lon : ℝ) (x.lat : ℝ) (x.lon : ℝ) := by
  obtain ⟨c, m, hscan⟩ :=
    scanAux_none_result
      (fun x => calculateDistance (lat : ℝ) (lon : ℝ) (x.lat : ℝ) (x.lon : ℝ)) cities hne
  rcases scanAux_shape _ cities none c m hscan with ⟨hb, _⟩ | ⟨l1, l2, hdec, hm, hl1, _, hl2⟩
  · cases hb
  · have hmc : m = calculateDistance (lat : ℝ) (lon : ℝ) (c.lat : ℝ) (c.lon : ℝ) := hm
    refine ⟨c, ?_, ?_, ?_⟩
    · rw [hdec]
      exact List.mem_append_right _ (List.mem_cons_self _ _)
    · have hcond : ¬ (lon < -180 ∨ 180 < lon ∨ lat < -90 ∨ 90 < lat) := by
        push_neg
        exact ⟨h1, h2, h3, h4⟩
      simp only [getCoordinates, if_neg hcond, hscan, hmc]
    · intro x hx
      rw [hdec] at hx
      rcases List.mem_append.mp hx with hx | hx
      · exact le_of_lt (hmc ▸ hl1 x hx)
      · rcases List.mem_cons.mp hx with hx | hx
        · rw [hx]
        · exact hmc ▸ hl2 x hx

/-- Witness for C1: the nearest city to the origin over a two-city
corpus. -/
theorem getCoordinates_returns_nearest_witness :
    ∃ c, c ∈ [london, paris] ∧
      getCoordinates (some 0) (some 0) [london, paris]
        = CoordResponse.ok c
            (round2 (calculateDistance ((0 : ℚ) : ℝ) ((0 : ℚ) : ℝ) (c.lat : ℝ) (c.lon : ℝ)))
      ∧ ∀ x ∈ [london, paris],
          calculateDistance ((0 : ℚ) : ℝ) ((0 : ℚ) : ℝ) (c.lat : ℝ) (c.lon : ℝ)
            ≤ calculateDistance ((0 : ℚ) : ℝ) ((0 : ℚ) : ℝ) (x.lat : ℝ) (x.lon : ℝ) :=
  getCoordinates_returns_nearest 0 0 [london, paris] (List.cons_ne_nil _ _)
    (by norm_num) (by norm_num) (by norm_num) (by norm_num)

/-- C4: on every valid coordinate pair the GET entry point (query
parameters, longitude then latitude) and the POST entry point (request
body, parsed latitude and longitude) of the nearest-city lookup return the
same city and the same rounded distance: both pass latitude first to the
internal distance function. -/
theorem get_post_coordinates_agree (lon lat : ℚ) (cities : List City)
    (_h1 : -180 ≤ lon) (_h2 : lon ≤ 180) (_h3 : -90 ≤ lat) (_h4 : lat ≤ 90) :
    getCoordinates (some lon) (some lat) cities
      = postCoordinates (Param.num lon) (Param.num lat) cities := by
  have hmiss : ¬ (Param.num lon = Param.missing ∨ Param.num lat = Param.missing) := by
    rintro (h | h) <;> cases h
  simp only [getCoordinates, postCoordinates, paramParse, if_neg hmiss]

/-- Witness for C4 at the coordinates of Paris over a one-city corpus. -/
theorem get_post_coordinates_agree_witness :
    getCoordinates (some 2.3522) (some 48.8566) [london]
      = postCoordinates (Param.num 2.3522) (Param.num 48.8566) [london] :=
  get_post_coordinates_agree 2.3522 48.8566 [london]
    (by norm_num) (by norm_num) (by norm_num) (by norm_num)

/-- C3: whenever longitude fails to parse as a finite number in the range
-180 to 180 or latitude fails to parse as a finite number in the range -90
to 90 (missing, non-numeric, or out of range), both nearest-city entry
points answer with an invalid-coordinates 400 error and return no city. -/
theorem coordinates_reject_invalid :
    (∀ lonO latO (cities : List City),
        (badCoord lonO (-180) 180 || badCoord latO (-90) 90) = true →
        ∃ msg, getCoordinates lonO latO cities = CoordResponse.badRequest msg)
  ∧ (∀ lonP latP (cities : List City),
        (badParam lonP (-180) 180 || badParam latP (-90) 90) = true →
        ∃ msg, postCoordinates lonP latP cities = CoordResponse.badRequest msg) := by
  constructor
  · intro lonO latO cities h
    rcases lonO with _ | v
    · rcases latO with _ | w
      · exact ⟨_, rfl⟩
      · exact ⟨_, rfl⟩
    · rcases latO with _ | w
      · exact ⟨_, rfl⟩
      · simp only [badCoord, Bool.or_eq_true, decide_eq_true_eq] at h
        have hcond : v < -180 ∨ 180 < v ∨ w < -90 ∨ 90 < w := by tauto
        exact ⟨"Invalid coordinates: longitude must be between -180 and 180, latitude between -90 and 90",
          by simp only [getCoordinates, if_pos hcond]⟩
  · intro lonP latP cities h
    rcases lonP with _ | _ | v
    · exact ⟨"Both longitude and latitude are required in request body",
        by simp [postCoordinates]⟩
    · rcases latP with _ | _ | w
      · exact ⟨"Both longitude and latitude are required in request body",
          by simp [postCoordinates]⟩
      · exact ⟨_, rfl⟩
      · exact ⟨_, rfl⟩
    · rcases latP with _ | _ | w
      · exact ⟨"Both longitude and latitude are required in request body",
          by simp [postCoordinates]⟩
      · exact ⟨_, rfl⟩
      · simp only [badParam, Bool.or_eq_true, decide_eq_true_eq] at h
        have hcond : v < -180 ∨ 180 < v ∨ w < -90 ∨ 90 < w := by tauto
        have hmiss : ¬ (Param.num v = Param.missing ∨ Param.num w = Param.missing) := by
          rintro (hh | hh) <;> cases hh
        exact ⟨"Invalid coordinates: longitude must be between -180 and 180, latitude between -90 and 90",
          by simp only [postCoordinates, paramParse, if_neg hmiss, if_pos hcond]⟩

/-- Witness for C3: longitude 200 on the GET route and latitude -95 on the
POST route are both rejected. -/
theorem coordinates_reject_invalid_witness :
    (∃ msg, getCoordinates (some 200) (some 0) [london] = CoordResponse.badRequest msg)
  ∧ (∃ msg, postCoordinates (Param.num 0) (Param.num (-95)) [london]
      = CoordResponse.badRequest msg) :=
  ⟨coordinates_reject_invalid.1 (some 200) (some 0) [london] (by norm_num [badCoord]),
    coordinates_reject_invalid.2 (Param.num 0) (Param.num (-95)) [london]
      (by norm_num [badParam])⟩

/-- Helper: the two-argument arctangent of a nonnegative ordinate is
nonnegative. -/
theorem atan2_nonneg (y x : ℝ) (hy : 0 ≤ y) : 0 ≤ atan2 y x := by
  unfold atan2
  split_ifs with h1 h2 h3 h4
  · rw [← Real.arctan_zero]
    exact Real.arctan_strictMono.monotone (div_nonneg hy h1.le)
  all_goals
    first
      | linarith [Real.pi_pos]
      | linarith [Real.neg_pi_div_two_lt_arctan (y / x), Real.pi_pos]

/-- Helper: the two-argument arctangent of a positive ordinate over a
nonnegative abscissa is positive. -/
theorem atan2_pos (y x : ℝ) (hy : 0 < y) (hx : 0 ≤ x) : 0 < atan2 y x := by
  unfold atan2
  split_ifs with h1 h2 h3
  · rw [← Real.arctan_zero]
    exact Real.arctan_strictMono (div_pos hy h1)
  all_goals
    first
      | linarith [Real.pi_pos]
      | exact absurd (le_antisymm (not_lt.mp h1) hx) h2

/-- Helper: the arctangent branch at the origin direction used by the
zero-distance computation. -/
theorem atan2_zero_one : atan2 0 1 = 0 := by
  unfold atan2
  rw [if_pos one_pos]
  simp [Real.arctan_zero]

/-- Helper: rounding zero to 2 decimal places gives zero. -/
theorem round2_zero : round2 0 = 0 := by
  simp [round2]

/-- Helper: the haversine distance from a point to itself is exactly
zero. -/
theorem calculateDistance_self (a b : ℝ) : calculateDistance a b a b = 0 := by
  simp [calculateDistance, sub_self, Real.sin_zero, Real.sqrt_zero, Real.sqrt_one,
    atan2_zero_one]

/-- Helper: every haversine distance is nonnegative. -/
theorem calculateDistance_nonneg (lat1 lon1 lat2 lon2 : ℝ) :
    0 ≤ calculateDistance lat1 lon1 lat2 lon2 := by
  simp only [calculateDistance]
  refine mul_nonneg (by norm_num) (mul_nonneg (by norm_num) ?_)
  exact atan2_nonneg _ _ (Real.sqrt_nonneg _)

/-- Helper: a positive haversine argument forces a positive distance. -/
theorem calc_pos_of_a_pos (a : ℝ) (ha : 0 < a) :
    0 < 6371 * (2 * atan2 (Real.sqrt a) (Real.sqrt (1 - a))) :=
  mul_pos (by norm_num)
    (mul_pos two_pos (atan2_pos _ _ (Real.sqrt_pos.mpr ha) (Real.sqrt_nonneg _)))

/-- Helper: the haversine distance between two distinct stored coordinate
pairs is strictly positive when the first point lies strictly inside the
valid coordinate ranges and the second lies within them. -/
theorem calculateDistance_pos_real (a0 b0 a1 b1 : ℝ)
    (ha1 : -90 < a0) (ha2 : a0 < 90) (hb1 : -180 < b0) (hb2 : b0 < 180)
    (hc1 : -90 ≤ a1) (hc2 : a1 ≤ 90) (hd1 : -180 ≤ b1) (hd2 : b1 ≤ 180)
    (hne : a1 ≠ a0 ∨ b1 ≠ b0) :
    0 < calculateDistance a0 b0 a1 b1 := by
  simp only [calculateDistance]
  apply calc_pos_of_a_pos
  have hcos0 : 0 < Real.cos (a0 * Real.pi / 180) := by
    apply Real.cos_pos_of_mem_Ioo
    constructor
    · have := mul_pos (show (0:ℝ) < a0 + 90 by linarith) Real.pi_pos
      nlinarith
    · have := mul_pos (show (0:ℝ) < 90 - a0 by linarith) Real.pi_pos
      nlinarith
  by_cases hA : a1 = a0
  · have hbne : b1 ≠ b0 := by
      rcases hne with h | h
      · exact absurd hA h
      · exact h
    subst hA
    have hv1 : -Real.pi < (b1 - b0) * Real.pi / 180 / 2 := by
      have := mul_pos (show (0:ℝ) < (b1 - b0) + 360 by linarith) Real.pi_pos
      nlinarith
    have hv2 : (b1 - b0) * Real.pi / 180 / 2 < Real.pi := by
      have := mul_pos (show (0:ℝ) < 360 - (b1 - b0) by linarith) Real.pi_pos
      nlinarith
    have hvne : (b1 - b0) * Real.pi / 180 / 2 ≠ 0 :=
      div_ne_zero
        (div_ne_zero (mul_ne_zero (sub_ne_zero.mpr hbne) Real.pi_ne_zero) (by norm_num))
        (by norm_num)
    have hsv : Real.sin ((b1 - b0) * Real.pi / 180 / 2) ≠ 0 := by
      intro hs
      exact hvne ((Real.sin_eq_zero_iff_of_lt_of_lt hv1 hv2).mp hs)
    have hss : 0 < Real.sin ((b1 - b0) * Real.pi / 180 / 2)
        * Real.sin ((b1 - b0) * Real.pi / 180 / 2) := mul_self_pos.mpr hsv
    simp only [sub_self, zero_mul, zero_div, Real.sin_zero, mul_zero, zero_add]
    nlinarith [mul_pos (mul_pos hcos0 hcos0) hss]
  · have hu1 : -Real.pi < (a1 - a0) * Real.pi / 180 / 2 := by
      have := mul_pos (show (0:ℝ) < (a1 - a0) + 360 by linarith) Real.pi_pos
      nlinarith
    have hu2 : (a1 - a0) * Real.pi / 180 / 2 < Real.pi := by
      have := mul_pos (show (0:ℝ) < 360 - (a1 - a0) by linarith) Real.pi_pos
      nlinarith
    have hune : (a1 - a0) * Real.pi / 180 / 2 ≠ 0 :=
      div_ne_zero
        (div_ne_zero (mul_ne_zero (sub_ne_zero.mpr hA) Real.pi_ne_zero) (by norm_num))
        (by norm_num)
    have hsu : Real.sin ((a1 - a0) * Real.pi / 180 / 2) ≠ 0 := by
      intro hs
      exact hune ((Real.sin_eq_zero_iff_of_lt_of_lt hu1 hu2).mp hs)
    have ht1 : 0 < Real.sin ((a1 - a0) * Real.pi / 180 / 2)
        * Real.sin ((a1 - a0) * Real.pi / 180 / 2) := mul_self_pos.mpr hsu
    have hcos1 : 0 ≤ Real.cos (a1 * Real.pi / 180) := by
      apply Real.cos_nonneg_of_mem_Icc
      constructor
      · have := mul_nonneg (show (0:ℝ) ≤ a1 + 90 by linarith) Real.pi_pos.le
        nlinarith
      · have := mul_nonneg (show (0:ℝ) ≤ 90 - a1 by linarith) Real.pi_pos.le
        nlinarith
    have ht2 : 0 ≤ Real.cos (a0 * Real.pi / 180) * Real.cos (a1 * Real.pi / 180)
        * (Real.sin ((b1 - b0) * Real.pi / 180 / 2)
            * Real.sin ((b1 - b0) * Real.pi / 180 / 2)) :=
      mul_nonneg (mul_nonneg hcos0.le hcos1) (mul_self_nonneg _)
    nlinarith [ht1, ht2]

/-- Helper: when the distance function vanishes exactly on the cities
satisfying `p` and is positive elsewhere in the list, the scan returns the
first city satisfying `p` (at distance zero), for any positive incoming
best candidate. -/
theorem scanAux_first_zero (d : City → ℝ) (p : City → Bool)
    (hz : ∀ x, p x = true → d x = 0) :
    ∀ (l : List City) (b : Option (City × ℝ)) (cstar : City),
      (∀ x ∈ l, p x = false → 0 < d x) →
      (∀ q : City × ℝ, b = some q → 0 < q.2) →
      List.find? p l = some cstar →
      scanAux d b l = some (cstar, 0) := by
  intro l
  induction l with
  | nil =>
    intro b cstar _ _ hfind
    exact absurd hfind (by simp)
  | cons y t ih =>
    intro b cstar hpos hb hfind
    have hpos' : ∀ x ∈ t, p x = false → 0 < d x :=
      fun x hx => hpos x (List.mem_cons_of_mem _ hx)
    by_cases hp : p y = true
    · rw [List.find?_cons_of_pos _ hp] at hfind
      have hy : cstar = y := (Option.some.inj hfind).symm
      subst hy
      have hdy : d cstar = 0 := hz cstar hp
      have hrest : ∀ x ∈ t, (0 : ℝ) ≤ d x := by
        intro x hx
        by_cases hpx : p x = true
        · rw [hz x hpx]
        · exact (hpos x (List.mem_cons_of_mem _ hx)
            (Bool.eq_false_iff.mpr hpx)).le
      rcases b with _ | ⟨b0, m0⟩
      · show scanAux d (some (cstar, d cstar)) t = some (cstar, 0)
        rw [hdy]
        exact scanAux_stable d t cstar 0 hrest
      · have hm0 : 0 < m0 := hb (b0, m0) rfl
        have hcmp : d cstar < m0 := by rw [hdy]; exact hm0
        show (if d cstar < m0 then scanAux d (some (cstar, d cstar)) t
              else scanAux d (some (b0, m0)) t) = some (cstar, 0)
        rw [if_pos hcmp, hdy]
        exact scanAux_stable d t cstar 0 hrest
    · have hp' : p y = false := Bool.eq_false_iff.mpr hp
      rw [List.find?_cons_of_neg _ hp] at hfind
      have hdy : 0 < d y := hpos y (List.mem_cons_self _ _) hp'
      rcases b with _ | ⟨b0, m0⟩
      · show scanAux d (some (y, d y)) t = some (cstar, 0)
        refine ih (some (y, d y)) cstar hpos' ?_ hfind
        rintro q hq
        rw [← Option.some.inj hq]
        exact hdy
      · have hm0 : 0 < m0 := hb (b0, m0) rfl
        show (if d y < m0 then scanAux d (some (y, d y)) t
              else scanAux d (some (b0, m0)) t) = some (cstar, 0)
        by_cases hcmp : d y < m0
        · rw [if_pos hcmp]
          refine ih (some (y, d y)) cstar hpos' ?_ hfind
          rintro q hq
          rw [← Option.some.inj hq]
          exact hdy
        · rw [if_neg hcmp]
          refine ih (some (b0, m0)) cstar hpos' ?_ hfind
          rintro q hq
          rw [← Option.some.inj hq]
          exact hm0

/-- C2: the nearest-city lookup resolves ties by returning the city
encountered first in traversal order (every city scanned before the
returned one is strictly farther, and none in the corpus is closer); in
particular, querying the exact stored coordinates of a corpus city whose
coordinates lie strictly inside the valid ranges (the corpus itself being
in range) returns the first city in traversal order sharing that exact
coordinate pair, at distance 0.00. -/
theorem nearest_tiebreak_first_and_reflexive :
    (∀ (lon lat : ℚ) (cities : List City) (c : City) (dd : ℝ),
        getCoordinates (some lon) (some lat) cities = CoordResponse.ok c dd →
        ∃ l1 l2, cities = l1 ++ c :: l2
          ∧ (∀ x ∈ l1, calculateDistance (lat : ℝ) (lon : ℝ) (c.lat : ℝ) (c.lon : ℝ)
              < calculateDistance (lat : ℝ) (lon : ℝ) (x.lat : ℝ) (x.lon : ℝ))
          ∧ (∀ x ∈ cities, calculateDistance (lat : ℝ) (lon : ℝ) (c.lat : ℝ) (c.lon : ℝ)
              ≤ calculateDistance (lat : ℝ) (lon : ℝ) (x.lat : ℝ) (x.lon : ℝ)))
  ∧ (∀ (cities : List City) (c0 : City),
        (∀ x ∈ cities, -90 ≤ x.lat ∧ x.lat ≤ 90 ∧ -180 ≤ x.lon ∧ x.lon ≤ 180) →
        c0 ∈ cities → -90 < c0.lat → c0.lat < 90 → -180 < c0.lon → c0.lon < 180 →
        ∃ c, List.find? (sharesPair c0) cities = some c
          ∧ getCoordinates (some c0.lon) (some c0.lat) cities = CoordResponse.ok c 0) := by
  constructor
  · intro lon lat cities c dd heq
    simp only [getCoordinates] at heq
    split at heq
    · exact absurd heq (by simp)
    · split at heq
      · exact absurd heq (by simp)
      · rename_i c' m hscan
        rw [CoordResponse.ok.injEq] at heq
        obtain ⟨hc, _⟩ := heq
        subst hc
        rcases scanAux_shape _ cities none c' m hscan with ⟨hb, _⟩ |
          ⟨l1, l2, hdec, hm, hl1, _, hl2⟩
        · cases hb
        · have hmc : m = calculateDistance (lat : ℝ) (lon : ℝ) (c'.lat : ℝ) (c'.lon : ℝ) := hm
          refine ⟨l1, l2, hdec, ?_, ?_⟩
          · intro x hx
            exact hmc ▸ hl1 x hx
          · intro x hx
            rw [hdec] at hx
            rcases List.mem_append.mp hx with hx | hx
            · exact le_of_lt (hmc ▸ hl1 x hx)
            · rcases List.mem_cons.mp hx with hx | hx
              · rw [hx]
              · exact hmc ▸ hl2 x hx
  · intro cities c0 hrange hmem h1 h2 h3 h4
    have hp0 : sharesPair c0 c0 = true := by simp [sharesPair]
    have hsome : (List.find? (sharesPair c0) cities).isSome :=
      List.find?_isSome.mpr ⟨c0, hmem, hp0⟩
    obtain ⟨c, hc⟩ := Option.isSome_iff_exists.mp hsome
    refine ⟨c, hc, ?_⟩
    have hcond : ¬ (c0.lon < -180 ∨ 180 < c0.lon ∨ c0.lat < -90 ∨ 90 < c0.lat) := by
      push_neg
      exact ⟨h3.le, h4.le, h1.le, h2.le⟩
    have hscan : scanAux
        (fun x => calculateDistance (c0.lat : ℝ) (c0.lon : ℝ) (x.lat : ℝ) (x.lon : ℝ))
        none cities = some (c, 0) := by
      refine scanAux_first_zero _ (sharesPair c0) ?_ cities none c ?_ ?_ hc
      · intro x hx
        simp only [sharesPair, decide_eq_true_eq] at hx
        obtain ⟨e1, e2⟩ := hx
        rw [e1, e2]
        exact calculateDistance_self _ _
      · intro x hx hpx
        simp only [sharesPair, decide_eq_false_iff_not, not_and_or] at hpx
        obtain ⟨hx1, hx2, hx3, hx4⟩ := hrange x hx
        refine calculateDistance_pos_real (c0.lat : ℝ) (c0.lon : ℝ) (x.lat : ℝ) (x.lon : ℝ)
          (by exact_mod_cast h1) (by exact_mod_cast h2) (by exact_mod_cast h3)
          (by exact_mod_cast h4) (by exact_mod_cast hx1) (by exact_mod_cast hx2)
          (by exact_mod_cast hx3) (by exact_mod_cast hx4) ?_
        rcases hpx with hpx | hpx
        · exact Or.inl (fun hh => hpx (by exact_mod_cast hh))
        · exact Or.inr (fun hh => hpx (by exact_mod_cast hh))
      · rintro q hq
        cases hq
    simp only [getCoordinates, if_neg hcond, hscan, round2_zero]

/-- Witness for C2: querying the exact coordinates of London over a corpus
listing Paris first returns London at distance zero. -/
theorem nearest_tiebreak_first_and_reflexive_witness :
    ∃ c, List.find? (sharesPair london) [paris, london] = some c
      ∧ getCoordinates (some london.lon) (some london.lat) [paris, london]
        = CoordResponse.ok c 0 :=
  nearest_tiebreak_first_and_reflexive.2 [paris, london] london
    (by decide) (by decide) (by decide) (by decide) (by decide) (by decide)

/-- C10: loading the corpus is idempotent; invoking the load step of
`Initialize` on an already-populated store leaves the store, hence its
count and every stored record, unchanged. -/
theorem initialize_noop_on_populated (store recs : List City) (h : store ≠ []) :
    initializeCities store recs = store
      ∧ (initializeCities store recs).length = store.length := by
  have h0 : ¬ (store.length = 0) := by
    intro hlen
    exact h (List.length_eq_zero.mp hlen)
  unfold initializeCities
  rw [if_neg h0]
  exact ⟨rfl, rfl⟩

/-- Witness for C10: re-loading a store that already holds London ignores
the offered records. -/
theorem initialize_noop_on_populated_witness :
    initializeCities [london] [paris] = [london]
      ∧ (initializeCities [london] [paris]).length = [london].length :=
  initialize_noop_on_populated [london] [paris] (List.cons_ne_nil _ _)

end CityList
